import Mathlib

/-!
# Verification of the resilient HTTP client in `frontend/lib/api.ts`

Shallow embedding of the retry/timeout/cancellation client and its typed
wrapper functions, together with theorems settling the specified
properties.  Fetch attempts are modelled by an environment function
`outcome : Nat -> AttemptOutcome` giving, for each attempt index, either
the settled `Response` or the thrown error (its `name` and `message`).
JSON values are modelled by a small inductive `Json`; JavaScript
truthiness and the `||` operator are modelled explicitly because the
source relies on them (`data.message || ...`, `data.tasks || []`,
`!request.etp_inlet_tank_value`).
-/

namespace Ravvyn

/-- Per-attempt timeout in milliseconds (`REQUEST_TIMEOUT`, line 4). -/
def REQUEST_TIMEOUT : Nat := 120000

/-- Maximum number of retries (`MAX_RETRIES`, line 7). -/
def MAX_RETRIES : Nat := 3

/-- Base retry delay in milliseconds (`RETRY_DELAY`, line 10). -/
def RETRY_DELAY : Nat := 1000

/-- A JSON value, as produced by `response.json()`. -/
inductive Json where
  | null
  | str (s : String)
  | num (n : Int)
  | bool (b : Bool)
  | arr (elems : List Json)
  | obj (fields : List (String × Json))

/-- JavaScript truthiness of a JSON value.  `NaN` is not representable in
the `Int` embedding of numbers; no claim depends on it. -/
def jsTruthy : Json → Bool
  | .null => false
  | .str s => s ≠ ""
  | .num n => n ≠ 0
  | .bool b => b
  | .arr _ => true
  | .obj _ => true

/-- JavaScript property access `v.k`: a field lookup on an object, and
`undefined` (modelled as `none`) on every non-object value. -/
def jsField (v : Json) (k : String) : Option Json :=
  match v with
  | .obj fields => fields.lookup k
  | _ => none

/-- JavaScript `String.prototype.trim`: strip leading and trailing
whitespace characters. -/
def jsTrim (s : String) : String :=
  String.mk (((s.data.dropWhile Char.isWhitespace).reverse.dropWhile
    Char.isWhitespace).reverse)

/-- JavaScript `a || b` where `a` may be `undefined` (a missing field). -/
def jsOr (a : Option Json) (b : Json) : Json :=
  match a with
  | some v => if jsTruthy v then v else b
  | none => b

/-- JavaScript `a || b` on present values. -/
def jsOrVal (a b : Json) : Json :=
  if jsTruthy a then a else b

mutual

/-- JavaScript `String(v)` coercion, as applied by `new Error(v)` to a
non-string argument.  Arrays stringify by joining their elements with
commas; objects stringify to the usual placeholder. -/
def jsToString : Json → String
  | .null => "null"
  | .str s => s
  | .num n => toString n
  | .bool b => if b then "true" else "false"
  | .arr elems => String.intercalate "," (jsToStringList elems)
  | .obj _ => "[object Object]"

/-- Stringification of each element of a JSON array. -/
def jsToStringList : List Json → List String
  | [] => []
  | j :: js => jsToString j :: jsToStringList js

end

/-- A settled `fetch` `Response`: status, status text, and the result of
`response.json()` (`none` when the body is not parseable JSON, in which
case `response.json()` throws). -/
structure Response where
  status : Nat
  statusText : String
  body : Option Json

/-- `response.ok`: status in the 2xx range (the Fetch standard). -/
def Response.ok (r : Response) : Bool :=
  200 ≤ r.status && r.status < 300

/-- Outcome of one physical fetch attempt: either the promise resolved
with a response, or it rejected with an error carrying a `name` and a
`message` (an `AbortError` when the signal passed to `fetch` fired; the
`Promise.race` timeout rejection carries name `Error` and message
`Request timeout`). -/
inductive AttemptOutcome where
  | resp (r : Response)
  | err (name : String) (message : String)

/-- Result of `fetchWithRetry`: the returned response, or the message of
the thrown error. -/
inductive FetchResult where
  | returned (r : Response)
  | threw (message : String)

/-- The `ApiError` shape produced by `parseErrorResponse` (lines 24-28).
The runtime values of `error` and `message` are whatever JSON the body
held, so they are modelled as `Json`. -/
structure ApiError where
  error : Json
  message : Json
  details : Option Json

/-- `parseErrorResponse` (lines 49-63): read the JSON body and take its
`error` and `message` fields with JavaScript `||` fallbacks; when
`response.json()` throws, synthesize `HTTP {status}: {statusText}`. -/
def parseErrorResponse (response : Response) : ApiError :=
  match response.body with
  | some data =>
      { error := jsOr (jsField data "error") (.str "UNKNOWN_ERROR")
        message := jsOr (jsField data "message") (.str "An unknown error occurred")
        details := jsField data "details" }
  | none =>
      { error := .str "HTTP_ERROR"
        message := .str ("HTTP " ++ toString response.status ++ ": " ++ response.statusText)
        details := none }

/-- One iteration of the `for` loop of `fetchWithRetry` (lines 75-141),
at index `attempt`, with the current `lastError` and the remaining fuel
`retries + 1 - attempt` (the number of loop iterations still allowed by
the guard `attempt <= retries`).  The triple returned is the result, the
number of fetch attempts made from this iteration on, and the list of
backoff delays slept.  Fuel 0 is the loop exit, line 143:
`throw lastError || new Error(..)`. -/
def fetchGo (outcome : Nat → AttemptOutcome) (retries : Nat) :
    Nat → Option String → Nat → FetchResult × Nat × List Nat
  | _attempt, lastError, 0 =>
      (.threw (lastError.getD "Request failed after retries"), 0, [])
  | attempt, lastError, fuel + 1 =>
      match outcome attempt with
      | .resp response =>
          if 400 ≤ response.status ∧ response.status < 500 then
            (.returned response, 1, [])
          else if response.ok = false ∧ attempt < retries then
            let delay := RETRY_DELAY * 2 ^ attempt
            let (res, n, ds) := fetchGo outcome retries (attempt + 1) lastError fuel
            (res, n + 1, delay :: ds)
          else
            (.returned response, 1, [])
      | .err name message =>
          if name = "AbortError" then
            (.threw "Request timeout", 1, [])
          else if attempt < retries then
            let delay := RETRY_DELAY * 2 ^ attempt
            let (res, n, ds) := fetchGo outcome retries (attempt + 1) (some message) fuel
            (res, n + 1, delay :: ds)
          else
            let (res, n, ds) := fetchGo outcome retries (attempt + 1) (some message) fuel
            (res, n + 1, ds)

/-- `fetchWithRetry` (lines 68-144): run the loop from attempt 0 with no
recorded error and fuel for the `1 + retries` iterations the guard
allows. -/
def fetchWithRetry (outcome : Nat → AttemptOutcome) (retries : Nat := MAX_RETRIES) :
    FetchResult × Nat × List Nat :=
  fetchGo outcome retries 0 none (retries + 1)

/-- Message of the platform error thrown by `response.json()` on an
unparseable body.  The exact text is platform dependent; the code only
ever compares propagated messages against `Request timeout`, which this
is not. -/
def jsonParseFailureMessage : String := "Unexpected end of JSON input"

/-- `sendChatMessage` (lines 149-186): validate, fetch `/chat`, on
non-ok parse the error body and throw its message, on ok return the
parsed body; in the catch, re-label a `Request timeout` failure. -/
def sendChatMessage (message : String) (outcome : Nat → AttemptOutcome) :
    Except String Json × Nat :=
  if message = "" ∨ jsTrim message = "" then
    (.error "Message cannot be empty", 0)
  else
    let (res, n, _) := fetchWithRetry outcome MAX_RETRIES
    let inner : Except String Json :=
      match res with
      | .threw message => .error message
      | .returned response =>
          if response.ok then
            match response.body with
            | some data => .ok data
            | none => .error jsonParseFailureMessage
          else
            let e := parseErrorResponse response
            .error (jsToString (jsOrVal e.message
              (.str ("HTTP error! status: " ++ toString response.status))))
    match inner with
    | .ok data => (.ok data, n)
    | .error m =>
        if m = "Request timeout" then
          (.error "Request timed out. Please check your connection and try again.", n)
        else
          (.error m, n)

/-- `checkApiHealth` (lines 191-201): a single direct `fetch` of
`/health` with a 5000 ms abort signal, bypassing `fetchWithRetry`;
resolves `response.ok`, and `false` on any thrown error. -/
def checkApiHealth (o : AttemptOutcome) : Bool :=
  match o with
  | .resp response => response.ok
  | .err _ _ => false

/-- The 5000 ms argument of `AbortSignal.timeout` in `checkApiHealth`
(line 195). -/
def healthCheckTimeoutMs : Nat := 5000

/-- `createTask` (lines 232-245): fetch `/tasks`, throw the parsed error
message on non-ok, return the parsed body on ok.  No catch block: thrown
errors, including `Request timeout`, propagate unchanged. -/
def createTask (outcome : Nat → AttemptOutcome) : Except String Json × Nat :=
  let (res, n, _) := fetchWithRetry outcome MAX_RETRIES
  match res with
  | .threw message => (.error message, n)
  | .returned response =>
      if response.ok then
        match response.body with
        | some data => (.ok data, n)
        | none => (.error jsonParseFailureMessage, n)
      else
        (.error (jsToString (parseErrorResponse response).message), n)

/-- `listTasks` (lines 247-267): fetch `/tasks`, throw the parsed error
message on non-ok, and on ok return `data.tasks || []`. -/
def listTasks (outcome : Nat → AttemptOutcome) : Except String Json × Nat :=
  let (res, n, _) := fetchWithRetry outcome MAX_RETRIES
  match res with
  | .threw message => (.error message, n)
  | .returned response =>
      if response.ok then
        match response.body with
        | some data => (.ok (jsOr (jsField data "tasks") (.arr [])), n)
        | none => (.error jsonParseFailureMessage, n)
      else
        (.error (jsToString (parseErrorResponse response).message), n)

/-- `getUpcomingTasks` (lines 312-324): same shape as `listTasks`,
against `/tasks/upcoming`; on ok returns `data.tasks || []`. -/
def getUpcomingTasks (outcome : Nat → AttemptOutcome) : Except String Json × Nat :=
  let (res, n, _) := fetchWithRetry outcome MAX_RETRIES
  match res with
  | .threw message => (.error message, n)
  | .returned response =>
      if response.ok then
        match response.body with
        | some data => (.ok (jsOr (jsField data "tasks") (.arr [])), n)
        | none => (.error jsonParseFailureMessage, n)
      else
        (.error (jsToString (parseErrorResponse response).message), n)

/-- `processNaturalLanguageQuery` (lines 610-647): validate the query,
fetch `/api/query`; the catch re-labels `Request timeout` as
`Query timed out. ...`. -/
def processNaturalLanguageQuery (query : String) (outcome : Nat → AttemptOutcome) :
    Except String Json × Nat :=
  if query = "" ∨ jsTrim query = "" then
    (.error "Query cannot be empty", 0)
  else
    let (res, n, _) := fetchWithRetry outcome MAX_RETRIES
    let inner : Except String Json :=
      match res with
      | .threw message => .error message
      | .returned response =>
          if response.ok then
            match response.body with
            | some data => .ok data
            | none => .error jsonParseFailureMessage
          else
            let e := parseErrorResponse response
            .error (jsToString (jsOrVal e.message
              (.str ("HTTP error! status: " ++ toString response.status))))
    match inner with
    | .ok data => (.ok data, n)
    | .error m =>
        if m = "Request timeout" then
          (.error "Query timed out. Please check your connection and try again.", n)
        else
          (.error m, n)

/-- The `ExportQueryResultsRequest` fields read by the validation of
`exportQueryResults`; `raw_data` is typed `any`, so it is a `Json`. -/
structure ExportQueryResultsRequest where
  query : String
  raw_data : Json
  formatted_response : String

/-- `exportQueryResults` (lines 710-742): validate
`!request.query || !request.raw_data`, fetch
`/api/export-query-results`; the catch re-labels `Request timeout`. -/
def exportQueryResults (request : ExportQueryResultsRequest)
    (outcome : Nat → AttemptOutcome) : Except String Json × Nat :=
  if request.query = "" ∨ jsTruthy request.raw_data = false then
    (.error "Query and raw_data are required", 0)
  else
    let (res, n, _) := fetchWithRetry outcome MAX_RETRIES
    let inner : Except String Json :=
      match res with
      | .threw message => .error message
      | .returned response =>
          if response.ok then
            match response.body with
            | some data => .ok data
            | none => .error jsonParseFailureMessage
          else
            let e := parseErrorResponse response
            .error (jsToString (jsOrVal e.message
              (.str ("HTTP error! status: " ++ toString response.status))))
    match inner with
    | .ok data => (.ok data, n)
    | .error m =>
        if m = "Request timeout" then
          (.error "Request timed out. Please check your connection and try again.", n)
        else
          (.error m, n)

/-- The `ETPTankCapacityRequest` fields read by the validation of
`getETPTankCapacity` (lines 745-749); the numeric inlet value is
embedded as an `Int`. -/
structure ETPTankCapacityRequest where
  date : String
  etp_inlet_tank_value : Int
  sheet_id : Option String

/-- `getETPTankCapacity` (lines 775-807): validate
`!request.date || !request.etp_inlet_tank_value` (JavaScript falsiness:
the empty string, and the number 0), fetch `/api/etp-tank-capacity`; the
catch re-labels `Request timeout`. -/
def getETPTankCapacity (request : ETPTankCapacityRequest)
    (outcome : Nat → AttemptOutcome) : Except String Json × Nat :=
  if request.date = "" ∨ request.etp_inlet_tank_value = 0 then
    (.error "Date and ETP Inlet tank value are required", 0)
  else
    let (res, n, _) := fetchWithRetry outcome MAX_RETRIES
    let inner : Except String Json :=
      match res with
      | .threw message => .error message
      | .returned response =>
          if response.ok then
            match response.body with
            | some data => .ok data
            | none => .error jsonParseFailureMessage
          else
            let e := parseErrorResponse response
            .error (jsToString (jsOrVal e.message
              (.str ("HTTP error! status: " ++ toString response.status))))
    match inner with
    | .ok data => (.ok data, n)
    | .error m =>
        if m = "Request timeout" then
          (.error "Request timed out. Please check your connection and try again.", n)
        else
          (.error m, n)

/-- The three abort signals alive during one attempt of `fetchWithRetry`
when the caller supplied `options.signal` (lines 78-97): the caller
signal, `combinedController.signal`, and the internal `controller.signal`
whose controller the 120000 ms timer aborts. -/
inductive AbortSig where
  | originalSignal
  | combinedSignal
  | controllerSignal
deriving DecidableEq

/-- The abort listeners registered at lines 87-93: the caller signal
aborts `combinedController`, and `combinedController.signal` aborts
`controller`.  No listener runs the other way. -/
def abortListeners : AbortSig → List AbortSig
  | .originalSignal => [.combinedSignal]
  | .combinedSignal => [.controllerSignal]
  | .controllerSignal => []

/-- One round of abort propagation through the registered listeners. -/
def abortStep (aborted : List AbortSig) : List AbortSig :=
  aborted ++ (aborted.flatMap abortListeners).filter (fun s => !aborted.contains s)

/-- All signals aborted, transitively, after `init` fires (two rounds
close the three-signal chain). -/
def abortedSignals (init : AbortSig) : List AbortSig :=
  abortStep (abortStep [init])

/-- The signal actually passed to `fetch` when `options.signal` is
present: `combinedController.signal` (line 95). -/
def fetchSignal : AbortSig := .combinedSignal

/-- The signal aborted by the internal 120000 ms timer (line 79):
`controller.signal`. -/
def timerTarget : AbortSig := .controllerSignal



/-! ## Theorems settling the claims -/

/-- Claim C1 (code bug evidence).  In the signal-combination block of
`fetchWithRetry` (lines 82-97), the caller-supplied signal does abort
the combined signal passed to `fetch` (and, transitively, the internal
controller), but the internal 120000 ms timer aborts only `controller`,
whose abort has no listener feeding the combined signal: the in-flight
network operation is NOT aborted when the internal per-attempt timeout
fires while a caller signal is present. -/
theorem callerSignal_aborts_fetch_but_internalTimer_does_not :
    fetchSignal ∈ abortedSignals .originalSignal ∧
    AbortSig.controllerSignal ∈ abortedSignals .originalSignal ∧
    fetchSignal ∉ abortedSignals timerTarget := by decide

/-- Claim C2.  With retry budget `MAX_RETRIES = 3` and every attempt
resolving with an HTTP 500 response, `fetchWithRetry` makes exactly four
attempts, sleeps 1000 ms, 2000 ms and 4000 ms between them, and returns
the response of the last attempt. -/
theorem fetchWithRetry_all500_four_attempts (r : Nat → Response)
    (h : ∀ n, (r n).status = 500) :
    MAX_RETRIES = 3 ∧
    fetchWithRetry (fun n => .resp (r n)) MAX_RETRIES =
      (.returned (r 3), 4, [1000, 2000, 4000]) := by
  refine ⟨rfl, ?_⟩
  simp [fetchWithRetry, fetchGo, Response.ok, h, RETRY_DELAY, MAX_RETRIES]

/-- Witness for C2 at a concrete all-500 schedule. -/
theorem fetchWithRetry_all500_four_attempts_witness :
    MAX_RETRIES = 3 ∧
    fetchWithRetry (fun _ => .resp ⟨500, "Internal Server Error", none⟩) MAX_RETRIES =
      (.returned ⟨500, "Internal Server Error", none⟩, 4, [1000, 2000, 4000]) :=
  fetchWithRetry_all500_four_attempts
    (fun _ => ⟨500, "Internal Server Error", none⟩) (fun _ => rfl)

/-- Claim C3, counterexample.  A 404 response with the parseable JSON
body `{error: "NOT_FOUND", message: ""}` makes `sendChatMessage` reject
with `An unknown error occurred`, not with the body message field `""`:
the `data.message || ...` fallback replaces falsy fields. -/
theorem sendChatMessage_404_emptyMessage_mismatch :
    sendChatMessage "hi"
        (fun _ => .resp ⟨404, "Not Found",
          some (.obj [("error", .str "NOT_FOUND"), ("message", .str "")])⟩) =
      (.error "An unknown error occurred", 1) ∧
    "An unknown error occurred" ≠ "" :=
  ⟨rfl, by decide⟩

/-- Claim C3, amended.  Every 4xx response is returned after exactly one
attempt with no retry and no backoff, for any retry budget; and when
`sendChatMessage` receives a 404 whose parseable body carries a
`message` field that is a non-empty string (other than the exact string
`Request timeout`, which the catch block would re-label), the rejection
message equals that field. -/
theorem fourxx_immediate_and_message_propagated (outcome : Nat → AttemptOutcome)
    (r : Response) (retries : Nat) (message m : String) (b : Json)
    (h0 : outcome 0 = .resp r) (h4 : 400 ≤ r.status) (h5 : r.status < 500) :
    fetchWithRetry outcome retries = (.returned r, 1, []) ∧
    (jsTrim message ≠ "" → r.body = some b →
      jsField b "message" = some (.str m) → m ≠ "" → m ≠ "Request timeout" →
      (sendChatMessage message outcome).1 = .error m) := by
  have hfr : ∀ k, fetchWithRetry outcome k = (.returned r, 1, []) := by
    intro k
    simp [fetchWithRetry, fetchGo, h0, h4, h5]
  refine ⟨hfr retries, ?_⟩
  intro hmsg hb hfield hm hmrt
  have hval : ¬ (message = "" ∨ jsTrim message = "") := by
    rintro (h | h)
    · exact hmsg (by simp [h, jsTrim])
    · exact hmsg h
  have hok : r.ok = false := by
    simp only [Response.ok, Bool.and_eq_false_iff, decide_eq_false_iff_not]
    right; omega
  simp [sendChatMessage, hval, hfr, hok, parseErrorResponse, hb, hfield,
    jsOr, jsOrVal, jsTruthy, jsToString, hm, hmrt]

/-- Witness for the amended C3 at a concrete 404 with body message
`Task not found`. -/
theorem fourxx_immediate_and_message_propagated_witness :
    fetchWithRetry
        (fun _ => .resp ⟨404, "Not Found",
          some (.obj [("message", .str "Task not found")])⟩) 3 =
      (.returned ⟨404, "Not Found", some (.obj [("message", .str "Task not found")])⟩,
        1, []) ∧
    (sendChatMessage "hello"
        (fun _ => .resp ⟨404, "Not Found",
          some (.obj [("message", .str "Task not found")])⟩)).1 =
      .error "Task not found" := by
  have h := fourxx_immediate_and_message_propagated
    (fun _ => .resp ⟨404, "Not Found", some (.obj [("message", .str "Task not found")])⟩)
    ⟨404, "Not Found", some (.obj [("message", .str "Task not found")])⟩ 3
    "hello" "Task not found" (.obj [("message", .str "Task not found")])
    rfl (by decide) (by decide)
  exact ⟨h.1, h.2 (by decide) rfl rfl (by decide) (by decide)⟩

/-- Claim C4.  Whenever the retry loop reaches an attempt whose fetch
rejects with an error named `AbortError` (caller cancellation or the
internal controller firing), `fetchWithRetry` throws `Request timeout`
from that very attempt: exactly one attempt is made from that point, no
backoff is slept, for every remaining retry budget. -/
theorem abortError_rejects_immediately_no_retry (outcome : Nat → AttemptOutcome)
    (retries attempt f : Nat) (lastError : Option String) (msg : String) :
    (outcome attempt = .err "AbortError" msg →
      fetchGo outcome retries attempt lastError (f + 1) =
        (.threw "Request timeout", 1, [])) ∧
    (outcome 0 = .err "AbortError" msg →
      fetchWithRetry outcome retries = (.threw "Request timeout", 1, [])) := by
  constructor
  · intro h; simp [fetchGo, h]
  · intro h; simp [fetchWithRetry, fetchGo, h]

/-- Witness for C4 with a concrete aborting first attempt and the full
default budget. -/
theorem abortError_rejects_immediately_no_retry_witness :
    fetchWithRetry (fun _ => .err "AbortError" "The user aborted a request.") 3 =
      (.threw "Request timeout", 1, []) :=
  (abortError_rejects_immediately_no_retry
    (fun _ => .err "AbortError" "The user aborted a request.") 3 0 0 none
    "The user aborted a request.").2 rfl

/-- Claim C5, counterexample.  `createTask` has no catch block: after an
aborted attempt it rejects with the bare `Request timeout`, not with the
connectivity re-label the claim asserts for every public function. -/
theorem createTask_propagates_bare_request_timeout :
    createTask (fun _ => .err "AbortError" "The user aborted a request.") =
      (.error "Request timeout", 1) ∧
    "Request timeout" ≠ "Request timed out. Please check your connection and try again." :=
  ⟨rfl, by decide⟩

/-- Claim C5, amended.  When the underlying `fetchWithRetry` failure is
`Request timeout`, the wrappers with an explicit re-label branch
(`sendChatMessage`, `processNaturalLanguageQuery`, `getETPTankCapacity`,
and likewise `exportQueryResults`) reject with the connectivity message,
while wrappers without a catch block (`createTask`, `listTasks`, and the
other task/export/doc/sync wrappers of the same shape) propagate the
bare `Request timeout` unchanged. -/
theorem timeout_relabel_only_in_wrappers_with_catch (outcome : Nat → AttemptOutcome)
    (message query : String) (request : ETPTankCapacityRequest)
    (hf : (fetchWithRetry outcome MAX_RETRIES).1 = .threw "Request timeout")
    (hm : jsTrim message ≠ "") (hq : jsTrim query ≠ "")
    (hd : request.date ≠ "") (hv : request.etp_inlet_tank_value ≠ 0) :
    (sendChatMessage message outcome).1 =
      .error "Request timed out. Please check your connection and try again." ∧
    (processNaturalLanguageQuery query outcome).1 =
      .error "Query timed out. Please check your connection and try again." ∧
    (getETPTankCapacity request outcome).1 =
      .error "Request timed out. Please check your connection and try again." ∧
    (createTask outcome).1 = .error "Request timeout" ∧
    (listTasks outcome).1 = .error "Request timeout" := by
  have hvm : ¬ (message = "" ∨ jsTrim message = "") := by
    rintro (h | h)
    · exact hm (by simp [h, jsTrim])
    · exact hm h
  have hvq : ¬ (query = "" ∨ jsTrim query = "") := by
    rintro (h | h)
    · exact hq (by simp [h, jsTrim])
    · exact hq h
  have hvr : ¬ (request.date = "" ∨ request.etp_inlet_tank_value = 0) := by
    rintro (h | h)
    · exact hd h
    · exact hv h
  rcases he : fetchWithRetry outcome MAX_RETRIES with ⟨res, n, ds⟩
  rw [he] at hf
  simp only at hf
  subst hf
  refine ⟨?_, ?_, ?_, ?_, ?_⟩ <;>
    simp [sendChatMessage, processNaturalLanguageQuery, getETPTankCapacity,
      createTask, listTasks, hvm, hvq, hvr, he]

/-- Witness for the amended C5 at a concrete aborting schedule. -/
theorem timeout_relabel_only_in_wrappers_with_catch_witness :
    (sendChatMessage "hello"
        (fun _ => .err "AbortError" "The user aborted a request.")).1 =
      .error "Request timed out. Please check your connection and try again." ∧
    (createTask (fun _ => .err "AbortError" "The user aborted a request.")).1 =
      .error "Request timeout" := by
  have h := timeout_relabel_only_in_wrappers_with_catch
    (fun _ => .err "AbortError" "The user aborted a request.")
    "hello" "what is up" ⟨"2025-01-15", 5, none⟩ rfl
    (by decide) (by decide) (by decide) (by decide)
  exact ⟨h.1, h.2.2.2.1⟩

/-- Claim C6.  A message or query that is empty or whitespace-only is
rejected with the validation message before any network attempt: both
wrappers return the validation error together with an attempt count of
zero. -/
theorem blank_inputs_rejected_with_zero_attempts (message query : String)
    (outcome : Nat → AttemptOutcome)
    (hm : jsTrim message = "") (hq : jsTrim query = "") :
    sendChatMessage message outcome = (.error "Message cannot be empty", 0) ∧
    processNaturalLanguageQuery query outcome = (.error "Query cannot be empty", 0) := by
  constructor
  · simp [sendChatMessage, hm]
  · simp [processNaturalLanguageQuery, hq]

/-- Witness for C6 on a whitespace-only message and an empty query. -/
theorem blank_inputs_rejected_with_zero_attempts_witness :
    sendChatMessage "  " (fun _ => .resp ⟨200, "OK", none⟩) =
      (.error "Message cannot be empty", 0) ∧
    processNaturalLanguageQuery "" (fun _ => .resp ⟨200, "OK", none⟩) =
      (.error "Query cannot be empty", 0) :=
  blank_inputs_rejected_with_zero_attempts "  " ""
    (fun _ => .resp ⟨200, "OK", none⟩) (by decide) (by decide)

/-- Claim C7, counterexample.  A parseable body whose `error` and
`message` fields are the falsy string `""` is NOT returned verbatim:
both fields are replaced by the `||` fallbacks. -/
theorem parseErrorResponse_falsy_fields_replaced :
    parseErrorResponse ⟨400, "Bad Request",
        some (.obj [("error", .str ""), ("message", .str "")])⟩ =
      { error := .str "UNKNOWN_ERROR", message := .str "An unknown error occurred",
        details := none } ∧
    "UNKNOWN_ERROR" ≠ "" ∧ "An unknown error occurred" ≠ "" :=
  ⟨rfl, by decide, by decide⟩

/-- Claim C7, amended.  `parseErrorResponse` returns the body fields
`error` and `message` verbatim when the body is parseable JSON and those
fields are non-empty (truthy) strings, replacing falsy or missing fields
by `UNKNOWN_ERROR` / `An unknown error occurred`; when the body is not
parseable it falls back to `HTTP_ERROR` with the synthesized message
`HTTP {status}: {statusText}`. -/
theorem parseErrorResponse_truthy_fields_and_fallback (r : Response) (b : Json)
    (e m : String) :
    (r.body = some b → jsField b "error" = some (.str e) → e ≠ "" →
      jsField b "message" = some (.str m) → m ≠ "" →
      parseErrorResponse r =
        { error := .str e, message := .str m, details := jsField b "details" }) ∧
    (r.body = none →
      parseErrorResponse r =
        { error := .str "HTTP_ERROR"
          message := .str ("HTTP " ++ toString r.status ++ ": " ++ r.statusText)
          details := none }) := by
  constructor
  · intro hb he hne hm hnm
    simp [parseErrorResponse, hb, he, hm, jsOr, jsTruthy, hne, hnm]
  · intro hb
    simp [parseErrorResponse, hb]

/-- Witness for the amended C7 on a concrete parseable body and a
concrete unparseable one. -/
theorem parseErrorResponse_truthy_fields_and_fallback_witness :
    parseErrorResponse ⟨404, "Not Found",
        some (.obj [("error", .str "NOT_FOUND"), ("message", .str "Task not found")])⟩ =
      { error := .str "NOT_FOUND", message := .str "Task not found", details := none } ∧
    parseErrorResponse ⟨502, "Bad Gateway", none⟩ =
      { error := .str "HTTP_ERROR", message := .str "HTTP 502: Bad Gateway",
        details := none } := by
  constructor
  · exact (parseErrorResponse_truthy_fields_and_fallback ⟨404, "Not Found",
      some (.obj [("error", .str "NOT_FOUND"), ("message", .str "Task not found")])⟩
      (.obj [("error", .str "NOT_FOUND"), ("message", .str "Task not found")])
      "NOT_FOUND" "Task not found").1 rfl rfl (by decide) rfl (by decide)
  · exact (parseErrorResponse_truthy_fields_and_fallback ⟨502, "Bad Gateway", none⟩
      (.obj []) "" "").2 rfl

/-- Claim C8.  A request whose numeric `etp_inlet_tank_value` equals 0
fails the falsiness check `!request.etp_inlet_tank_value`, so
`getETPTankCapacity` rejects with the required-fields validation message
and makes zero network attempts. -/
theorem getETPTankCapacity_zero_inlet_rejected (request : ETPTankCapacityRequest)
    (outcome : Nat → AttemptOutcome) (h : request.etp_inlet_tank_value = 0) :
    getETPTankCapacity request outcome =
      (.error "Date and ETP Inlet tank value are required", 0) := by
  simp [getETPTankCapacity, h]

/-- Witness for C8 with a well-formed date and inlet value 0. -/
theorem getETPTankCapacity_zero_inlet_rejected_witness :
    getETPTankCapacity ⟨"2025-01-15", 0, none⟩ (fun _ => .resp ⟨200, "OK", none⟩) =
      (.error "Date and ETP Inlet tank value are required", 0) :=
  getETPTankCapacity_zero_inlet_rejected ⟨"2025-01-15", 0, none⟩
    (fun _ => .resp ⟨200, "OK", none⟩) rfl

/-- Claim C9.  On a 2xx response whose parseable JSON body has no
`tasks` field, or whose `tasks` field is `null`, both `listTasks` and
`getUpcomingTasks` resolve with the empty array after one attempt,
because of the `data.tasks || []` fallback. -/
theorem tasks_field_missing_or_null_yields_empty_array (r : Response) (b : Json)
    (hok : r.ok = true) (hb : r.body = some b)
    (ht : jsField b "tasks" = none ∨ jsField b "tasks" = some .null) :
    listTasks (fun _ => .resp r) = (.ok (.arr []), 1) ∧
    getUpcomingTasks (fun _ => .resp r) = (.ok (.arr []), 1) := by
  have hst : 200 ≤ r.status ∧ r.status < 300 := by
    simpa [Response.ok] using hok
  have hfr : fetchWithRetry (fun _ => .resp r) MAX_RETRIES = (.returned r, 1, []) := by
    have h4 : ¬ (400 ≤ r.status ∧ r.status < 500) := by omega
    simp [fetchWithRetry, fetchGo, h4, hok]
  rcases ht with ht | ht <;>
    simp [listTasks, getUpcomingTasks, hfr, hok, hb, ht, jsOr, jsTruthy]

/-- Witness for C9 on a concrete 200 response whose body lacks `tasks`. -/
theorem tasks_field_missing_or_null_yields_empty_array_witness :
    listTasks (fun _ => .resp ⟨200, "OK", some (.obj [("count", .num 0)])⟩) =
      (.ok (.arr []), 1) ∧
    getUpcomingTasks (fun _ => .resp ⟨200, "OK", some (.obj [("count", .num 0)])⟩) =
      (.ok (.arr []), 1) :=
  tasks_field_missing_or_null_yields_empty_array
    ⟨200, "OK", some (.obj [("count", .num 0)])⟩ (.obj [("count", .num 0)])
    (by decide) rfl (Or.inl rfl)

/-- Claim C10.  `checkApiHealth` is total over all single-attempt
outcomes: it returns `true` exactly when the response status is 2xx,
returns `false` on every thrown error, depends only on the one outcome
it consumes (it bypasses `fetchWithRetry` and its model takes a single
`AttemptOutcome`), and its abort timeout is the 5000 ms constant rather
than the retried-path 120000 ms `REQUEST_TIMEOUT`. -/
theorem checkApiHealth_total_single_attempt :
    (∀ o, checkApiHealth o = true ↔
      ∃ r, o = .resp r ∧ 200 ≤ r.status ∧ r.status < 300) ∧
    (∀ name m, checkApiHealth (.err name m) = false) ∧
    (∀ o o' : AttemptOutcome, o = o' → checkApiHealth o = checkApiHealth o') ∧
    healthCheckTimeoutMs = 5000 ∧ healthCheckTimeoutMs ≠ REQUEST_TIMEOUT := by
  refine ⟨?_, fun _ _ => rfl, fun o o' h => by rw [h], rfl, by decide⟩
  intro o
  cases o with
  | resp r => simp [checkApiHealth, Response.ok]
  | err name m => simp [checkApiHealth]

/-- Witness for C10 on a 204 response and a network failure. -/
theorem checkApiHealth_total_single_attempt_witness :
    checkApiHealth (.resp ⟨204, "No Content", none⟩) = true ∧
    checkApiHealth (.err "TypeError" "Failed to fetch") = false :=
  ⟨(checkApiHealth_total_single_attempt.1 (.resp ⟨204, "No Content", none⟩)).2
    ⟨⟨204, "No Content", none⟩, rfl, by decide, by decide⟩,
   checkApiHealth_total_single_attempt.2.1 "TypeError" "Failed to fetch"⟩

end Ravvyn
